import Mathlib

/-!
Shallow embedding of the Sipapu client library (KokopelliMusic/Sipapu).

The repository is a thin TypeScript client over two external collaborators:
a Supabase record store (tables `playlist`, `song`, `session`) and the Tawa
relay (`POST /input/x`, `GET /stream/session/x`).  We embed each service
method as a pure Lean function over explicit store state:

* a table is a `List` of row structures mirroring the TypeScript row types;
* a Supabase `select().match(...)` on the success path yields
  `error = null` and `data` equal to the array of matching rows -- `data`
  is an array (possibly empty), never `null`, on success.  We keep the
  `error`/`data` pair explicit because several methods branch on it and one
  of them (`Session.get`) branches incorrectly;
* `throw` becomes `Except.error` with the thrown message;
* a published relay event becomes an `Event` value returned by the method.

Files embedded: `src/src/services/song.ts`, `src/src/services/playlist.ts`,
`src/src/services/session.ts`, `src/src/events.ts`, and the unnamed
snapshots `part_001` (older Playlist), `part_003` (newer Song),
`part_004` (newest Session, with settings).  Functions from unnamed
snapshots carry a `P1`/`P3`/`P4` marker in their Lean name.
-/

namespace Sipapu

/-- The `SongEnum` from `src/src/services/song.ts`. -/
inductive SongEnum where
  | spotify
  | youtube
  deriving DecidableEq, Repr

/-- The `SongType` from `src/src/services/song.ts`: a row of the `song` table as
returned to clients.  `createdAt` is kept as a numeric timestamp. -/
structure SongType where
  id : Nat
  createdAt : Nat
  playCount : Nat
  addedBy : String
  songType : SongEnum
  platformId : String
  playlistId : Nat
  title : String
  artist : Option String := none
  cover : Option String := none
  length : Option Nat := none
  album : Option String := none
  deriving DecidableEq, Repr

/-- The `YoutubeSongCreateType` from `src/src/services/song.ts` (the
`songType: SongEnum.YOUTUBE` tag is implied by the name). -/
structure YoutubeSongCreateType where
  title : String
  platformId : String
  addedBy : String
  playlistId : Nat
  deriving DecidableEq, Repr

/-- The `PlaylistType` from `src/src/services/playlist.ts`: a row of the
`playlist` table. -/
structure PlaylistType where
  id : Nat
  createdAt : Nat
  name : String
  user : String
  users : List String
  deriving DecidableEq, Repr

/-- The `PlayerEvents` from the `part_004` Session snapshot. -/
inductive PlayerEvents where
  | adtrad
  | opus
  | randomWord
  deriving DecidableEq, Repr

/-- The `QueueAlgorithms` from the `part_004` Session snapshot. -/
inductive QueueAlgorithms where
  | classic
  | modern
  | random
  | weightedSong
  deriving DecidableEq, Repr

/-- The `SessionSettings` from the `part_004` Session snapshot. -/
structure SessionSettings where
  allowSpotify : Bool
  allowYouTube : Bool
  youtubeOnlyAudio : Bool
  allowEvents : Bool
  eventFrequency : Nat
  allowedEvents : List PlayerEvents
  randomWordList : List String
  anyoneCanUsePlayerControls : Bool
  anyoneCanAddToQueue : Bool
  anyoneCanSeeHistory : Bool
  anyoneCanSeeQueue : Bool
  anyoneCanSeePlaylist : Bool
  algorithmUsed : QueueAlgorithms
  deriving DecidableEq, Repr

/-- The `DEFAULT_SETTINGS` from the `part_004` Session snapshot. -/
def DEFAULT_SETTINGS : SessionSettings where
  allowSpotify := true
  allowYouTube := true
  youtubeOnlyAudio := false
  allowEvents := true
  eventFrequency := 10
  allowedEvents := [PlayerEvents.adtrad]
  randomWordList := []
  anyoneCanUsePlayerControls := true
  anyoneCanAddToQueue := true
  anyoneCanSeeHistory := true
  anyoneCanSeeQueue := true
  anyoneCanSeePlaylist := true
  algorithmUsed := QueueAlgorithms.modern

/-- A row of the `session` table.  The `settings` column appears in the
newest (`part_004`) snapshot; the `src/src` snapshot simply never reads it. -/
structure SessionRow where
  id : String
  createdAt : Nat
  userId : String
  playlistId : Nat
  currentlyPlaying : Option SongType
  settings : SessionSettings
  deriving DecidableEq, Repr

/-- The `SessionType` from `src/src/services/session.ts`: the client-facing
shape produced by `Session.get`. -/
structure SessionType where
  id : String
  createdAt : Nat
  user : String
  playlistId : Nat
  currentlyPlaying : Option SongType
  deriving DecidableEq, Repr

/-- The `EventTypes` from `src/src/events.ts`. -/
inductive EventTypes where
  | GENERIC
  | SESSION_CREATED
  | SESSION_REMOVED
  | SKIP_SONG
  | PLAY_SONG
  | PREVIOUS_SONG
  | RESUME_PLAYBACK
  | PAUSE_PLAYBACK
  | YOUTUBE_SONG_ADDED
  | SPOTIFY_SONG_ADDED
  | SONG_REMOVED
  | NEW_USER
  | SONG_FINISHED
  | NEXT_SONG
  | PLAYLIST_FINISHED
  | SPOTIFY_ERROR
  | YOUTUBE_ERROR
  | PLAYLIST_TOO_SMALL_ERROR
  | SESSION_SETTINGS_CHANGED
  deriving DecidableEq, Repr

/-- The string value of each `EventTypes` member, exactly as written in
`src/src/events.ts` (note `SESSION_SETTINGS_CHANGED` is the one member
whose value is not lower-case snake). -/
def EventTypes.toWire : EventTypes → String
  | .GENERIC => "generic"
  | .SESSION_CREATED => "session_created"
  | .SESSION_REMOVED => "session_removed"
  | .SKIP_SONG => "skip_song"
  | .PLAY_SONG => "play_song"
  | .PREVIOUS_SONG => "previous_song"
  | .RESUME_PLAYBACK => "resume_playback"
  | .PAUSE_PLAYBACK => "pause_playback"
  | .YOUTUBE_SONG_ADDED => "youtube_song_added"
  | .SPOTIFY_SONG_ADDED => "spotify_song_added"
  | .SONG_REMOVED => "song_removed"
  | .NEW_USER => "new_user"
  | .SONG_FINISHED => "song_finished"
  | .NEXT_SONG => "next_song"
  | .PLAYLIST_FINISHED => "playlist_finished"
  | .SPOTIFY_ERROR => "spotify_error"
  | .YOUTUBE_ERROR => "youtube_error"
  | .PLAYLIST_TOO_SMALL_ERROR => "playlist_too_small_error"
  | .SESSION_SETTINGS_CHANGED => "SESSION_SETTINGS_CHANGED"

/-- Runtime payload of an event (`EventData` and its refinements in
`src/src/events.ts`).  The TypeScript payloads are structural; we keep one
sum covering the payload shapes the embedded methods actually build.
`jsonText p` stands for the JSON string produced by `JSON.stringify(p)`:
the serialization is injective and invertible for the values at hand, so we
keep the serialized string abstractly as a constructor around the value it
encodes.  A `jsonText` payload is a JSON *string*, not the object itself. -/
inductive EventPayload where
  | emptyData (error : Bool)
  | newUser (error : Bool) (user : String)
  | songAdded (error : Bool) (song : YoutubeSongCreateType)
  | songRemoved (error : Bool) (songId : Nat)
  | settingsObj (s : SessionSettings)
  | jsonText (p : EventPayload)
  deriving DecidableEq, Repr

/-- The `EMPTY_EVENT_DATA` from `src/src/services/session.ts`. -/
def EMPTY_EVENT_DATA : EventPayload := EventPayload.emptyData false

/-- The wire frame pushed to the relay: the body built inside
`Session.notifyEvent` (`{ session, clientType, eventType, data }`). -/
structure Event where
  session : String
  clientType : String
  eventType : String
  data : EventPayload
  deriving DecidableEq, Repr

/-- The mutable client context of a `Sipapu` instance: the configured
`clientType`, the `Session.sessionId` field (set by `setSessionId` and by a
successful `claim`), and the authenticated user id
(`client.auth.user()?.id`). -/
structure ClientCtx where
  clientType : String
  storedSessionId : Option String
  authUid : String
  deriving DecidableEq, Repr

/-- The `Session.setSessionId` from `src/src/services/session.ts` (lines
34-36): stores the id on the client; the stored value is substituted for
the explicit argument of later session-scoped calls. -/
def Session.setSessionId (ctx : ClientCtx) (sessionId : String) : ClientCtx :=
  { ctx with storedSessionId := some sessionId }

/-- The `Session.notifyEvent` from `src/src/services/session.ts` (lines 44-59):
the POST body carries the payload object directly (`data: eventData`). -/
def Session.notifyEvent (ctx : ClientCtx) (sessionId : String)
    (eventType : EventTypes) (eventData : EventPayload) : Event :=
  { session := sessionId
    clientType := ctx.clientType
    eventType := eventType.toWire
    data := eventData }

/-- The `Session.notifyEvent` from the `part_004` snapshot (lines 371-386): the
POST body carries `data: JSON.stringify(eventData)`, i.e. the payload is
serialized a second time and travels as a JSON string. -/
def SessionP4.notifyEvent (ctx : ClientCtx) (sessionId : String)
    (eventType : EventTypes) (eventData : EventPayload) : Event :=
  { session := sessionId
    clientType := ctx.clientType
    eventType := eventType.toWire
    data := EventPayload.jsonText eventData }

/-- The string values of the 19 `EventTypes` members, in declaration
order: the discriminants `parseEvent` recognizes. -/
def knownEventTags : List String :=
  ["generic", "session_created", "session_removed", "skip_song",
   "play_song", "previous_song", "resume_playback", "pause_playback",
   "youtube_song_added", "spotify_song_added", "song_removed", "new_user",
   "song_finished", "next_song", "playlist_finished", "spotify_error",
   "youtube_error", "playlist_too_small_error", "SESSION_SETTINGS_CHANGED"]

/-- The `parseEvent` from `src/src/events.ts` (lines 88-130).  The source is a
`switch` over the discriminant string whose every case returns `data`
unchanged (the `as` casts are erased at runtime) and which has **no**
`default` case: a discriminant outside the enumeration falls through and
the function returns `undefined`, modelled as `none`.  No exception is
raised on that path. -/
def parseEvent (eventType : String) (data : EventPayload) : Option EventPayload :=
  match eventType with
  | "generic" => some data
  | "session_created" => some data
  | "session_removed" => some data
  | "skip_song" => some data
  | "play_song" => some data
  | "previous_song" => some data
  | "resume_playback" => some data
  | "pause_playback" => some data
  | "youtube_song_added" => some data
  | "spotify_song_added" => some data
  | "song_removed" => some data
  | "new_user" => some data
  | "song_finished" => some data
  | "next_song" => some data
  | "playlist_finished" => some data
  | "spotify_error" => some data
  | "youtube_error" => some data
  | "playlist_too_small_error" => some data
  | "SESSION_SETTINGS_CHANGED" => some data
  | _ => none

/-- Result of a Supabase `select().match(...)` against the `song` table.
On the success path `error` is `null` and `data` is the array of matching
rows -- an array, possibly empty, never `null`. -/
structure SongSelectResult where
  error : Option String
  data : Option (List SongType)
  deriving DecidableEq, Repr

/-- The select-and-match of the `song` table on `platform_id` and
`playlist`, success
path. -/
def songSelectMatch (songs : List SongType) (platformId : String)
    (playlistId : Nat) : SongSelectResult where
  error := none
  data := some (songs.filter fun s =>
    s.platformId = platformId ∧ s.playlistId = playlistId)

/-- The `Song.alreadyContains` from `src/src/services/song.ts` (lines 88-99).
The source returns `data !== null`; on the success path of a Supabase
select `data` is an array (possibly empty) and never `null`, so the
returned value does not depend on whether any matching row exists. -/
def Song.alreadyContains (songs : List SongType) (platformId : String)
    (playlistId : Nat) : Bool :=
  let r := songSelectMatch songs platformId playlistId
  if r.error ≠ none then false
  else decide (r.data ≠ none)

/-- The `Song.alreadyContains` from the `part_003` snapshot (lines 92-107):
the newer snapshot additionally requires `data.length > 0`. -/
def SongP3.alreadyContains (songs : List SongType) (platformId : String)
    (playlistId : Nat) : Bool :=
  let r := songSelectMatch songs platformId playlistId
  if r.error ≠ none then false
  else if r.data = none then false
  else decide ((r.data.getD []).length > 0)

/-- Modelled from the spec: the Record Store rpc `add_user_to_playlist`
(its SQL body is not part of this repository; `src/src/services/playlist.ts`
and the `part_004` `join` only invoke it).  Per the spec it is a single
atomic, deduplicating append of `uid` to the contributor array of the one
playlist identified by `playlist_id`. -/
def add_user_to_playlist (playlists : List PlaylistType) (playlistId : Nat)
    (uid : String) : List PlaylistType :=
  playlists.map fun p =>
    if p.id = playlistId then
      if uid ∈ p.users then p else { p with users := p.users ++ [uid] }
    else p

/-- The `Playlist.addUser` from `src/src/services/playlist.ts` (lines 198-213):
invokes the `add_user_to_playlist` rpc, then requires the stored session id
and notifies (the event type used is `SESSION_REMOVED`, with a user
payload). -/
def Playlist.addUser (ctx : ClientCtx) (playlists : List PlaylistType)
    (playlistId : Nat) (userId : String) :
    Except String (List PlaylistType × Event) :=
  let playlists' := add_user_to_playlist playlists playlistId userId
  match ctx.storedSessionId with
  | none => Except.error "SessionID not set in sipapu.Session.sessionId"
  | some sid =>
      Except.ok (playlists',
        Session.notifyEvent ctx sid EventTypes.SESSION_REMOVED
          (EventPayload.newUser false userId))

/-- The `Playlist.addUser` from the `part_001` snapshot (lines 144-169): a
read-modify-write.  It selects the playlist row, builds
`data[0].users.append(username)` in memory, and writes the result back with
`update({ users: newUsers })` carrying **no** `.match` filter, so the write
applies to every row of the `playlist` table.  Two modelling notes, both
from the source text: the null check `data === null` never fires on the
success path, so an unknown id reaches `data[0]` (modelled as the
"Playlist not found" error for the empty-match case); and JavaScript arrays
have no `append` method -- executed literally the line throws `TypeError`
-- so we model the evident intent of the line, a push of `username` onto
the array. -/
def PlaylistP1.addUser (playlists : List PlaylistType) (playlistId : Nat)
    (username : String) : Except String (List PlaylistType) :=
  let data := playlists.filter fun p => p.id = playlistId
  match data with
  | [] => Except.error "Playlist not found"
  | row :: _ =>
      let newUsers := row.users ++ [username]
      Except.ok (playlists.map fun p => { p with users := newUsers })

/-- The `Playlist.resetPlaylist` from `src/src/services/playlist.ts` (lines
174-190): zeroes `play_count` on every `song` row matching the playlist,
then requires the stored session id and notifies
`EventTypes.SESSION_REMOVED` (the doc comment above the function says a
`PLAYLIST_FINISHED` event is generated).  The update is performed before
the session-id check, so the zeroing survives even when the notify throws;
we therefore return the updated table alongside the notify outcome. -/
def Playlist.resetPlaylist (ctx : ClientCtx) (songs : List SongType)
    (playlistId : Nat) : List SongType × Except String Event :=
  let songs' := songs.map fun s =>
    if s.playlistId = playlistId then { s with playCount := 0 } else s
  match ctx.storedSessionId with
  | none => (songs', Except.error "SessionID not set in sipapu.Session.sessionId")
  | some sid =>
      (songs',
        Except.ok (Session.notifyEvent ctx sid EventTypes.SESSION_REMOVED
          EMPTY_EVENT_DATA))

/-- The `Playlist.get` from `src/src/services/playlist.ts` (lines 64-85). -/
def Playlist.get (playlists : List PlaylistType) (playlistId : Nat) :
    Except String PlaylistType :=
  let data := playlists.filter fun p => p.id = playlistId
  match data with
  | [] => Except.error "Playlist not found"
  | p :: _ => Except.ok p

/-- The `MAX_PLAYS` from `src/src/services/playlist.ts` (line 19). -/
def MAX_PLAYS : Nat := 3

/-- The `Song.getAllFromPlaylist` from `src/src/services/song.ts` (lines
193-232): all `song` rows of the playlist. -/
def Song.getAllFromPlaylist (songs : List SongType) (playlistId : Nat) :
    List SongType :=
  songs.filter fun s => s.playlistId = playlistId

/-- The `Playlist.getSongsNotPlayedEnough` from `src/src/services/playlist.ts`
(lines 283-291): the songs of the playlist with `playCount < MAX_PLAYS`. -/
def getSongsNotPlayedEnough (songs : List SongType) (playlistId : Nat) :
    List SongType :=
  (Song.getAllFromPlaylist songs playlistId).filter fun song =>
    song.playCount < MAX_PLAYS

/-- The `Song.createYoutube` from `src/src/services/song.ts` (lines 107-132):
first `Playlist.addUser`, then the duplicate check via `alreadyContains`,
then the insert (the database assigns the new row id, passed here as
`newId`). -/
def Song.createYoutube (ctx : ClientCtx) (songs : List SongType)
    (playlists : List PlaylistType) (song : YoutubeSongCreateType)
    (newId : Nat) : Except String (List SongType × List PlaylistType) :=
  match Playlist.addUser ctx playlists song.playlistId song.addedBy with
  | Except.error e => Except.error e
  | Except.ok (playlists', _ev) =>
      if Song.alreadyContains songs song.platformId song.playlistId then
        Except.error "Song already exists"
      else
        Except.ok
          (songs ++ [{ id := newId, createdAt := 0, playCount := 0,
                       addedBy := song.addedBy, songType := SongEnum.youtube,
                       platformId := song.platformId,
                       playlistId := song.playlistId, title := song.title }],
           playlists')

/-- Result of a Supabase `select().match({ id })` against the `session`
table, success path: `error = null`, `data` the (possibly empty, never
null) array of matching rows. -/
structure SessionSelectResult where
  error : Option String
  data : Option (List SessionRow)
  deriving DecidableEq, Repr

/-- The select-and-match of the `session` table on `id`, success path. -/
def sessionSelectMatch (db : List SessionRow) (sessionId : String) :
    SessionSelectResult where
  error := none
  data := some (db.filter fun r => r.id = sessionId)

/-- The `Session.get` from `src/src/services/session.ts` (lines 106-124).  The
guard is `if (error === null || data === null || data.length === 0) return
undefined` -- on the success path `error` **is** null, so the guard always
fires and the function returns `undefined` for every session id, found or
not. -/
def Session.get (db : List SessionRow) (sessionId : String) :
    Option SessionType :=
  let r := sessionSelectMatch db sessionId
  if r.error = none ∨ r.data = none ∨ (r.data.getD []).length = 0 then
    none
  else
    (r.data.getD []).head?.map fun row =>
      { id := sessionId, createdAt := row.createdAt, user := row.userId,
        playlistId := row.playlistId,
        currentlyPlaying := row.currentlyPlaying }

/-- The `Session.get` from the final `part_004` snapshot (lines 474-497), whose
guard is split correctly: `if (error !== null) throw error` then
`if (data === null || data.length === 0) return undefined`. -/
def SessionP4.get (db : List SessionRow) (sessionId : String) :
    Except String (Option SessionType) :=
  let r := sessionSelectMatch db sessionId
  if r.error ≠ none then Except.error ((r.error).getD "")
  else if r.data = none ∨ (r.data.getD []).length = 0 then Except.ok none
  else
    Except.ok ((r.data.getD []).head?.map fun row =>
      { id := sessionId, createdAt := row.createdAt, user := row.userId,
        playlistId := row.playlistId,
        currentlyPlaying := row.currentlyPlaying })

/-- The session-id substitution performed at the top of `watch`, `setUser`,
`getPlaylist`, `getCurrentlyPlaying` and `setCurrentlyPlaying`:
`if (this.sessionId !== undefined) sessionId = this.sessionId`. -/
def effectiveSessionId (ctx : ClientCtx) (sessionId : String) : String :=
  match ctx.storedSessionId with
  | some s => s
  | none => sessionId

/-- The `Session.watch` from `src/src/services/session.ts` (lines 153-167):
after the stored-id substitution the argument is used only to form the
stream URL `tawaUrl/stream/session/id`; we model the call by the session
id the subscription is opened for. -/
def Session.watch (ctx : ClientCtx) (sessionId : String) : String :=
  effectiveSessionId ctx sessionId

/-- The `Session.setUser` from `src/src/services/session.ts` (lines 176-195):
stored-id substitution, existence check through `Session.get`, then
`update({ user_id: user }).match({ id: sessionId })`. -/
def Session.setUser (ctx : ClientCtx) (db : List SessionRow) (user : String)
    (sessionId : String) : Except String (List SessionRow) :=
  let sessionId := effectiveSessionId ctx sessionId
  match Session.get db sessionId with
  | none => Except.error "Session not found"
  | some _ =>
      Except.ok (db.map fun r =>
        if r.id = sessionId then { r with userId := user } else r)

/-- The `Session.getPlaylist` from `src/src/services/session.ts` (lines
204-219). -/
def Session.getPlaylist (ctx : ClientCtx) (db : List SessionRow)
    (playlists : List PlaylistType) (sessionId : String) :
    Except String PlaylistType :=
  let sessionId := effectiveSessionId ctx sessionId
  match Session.get db sessionId with
  | none => Except.error "Session not found"
  | some session => Playlist.get playlists session.playlistId

/-- The `Session.getCurrentlyPlaying` from `src/src/services/session.ts`
(lines 228-244). -/
def Session.getCurrentlyPlaying (ctx : ClientCtx) (db : List SessionRow)
    (sessionId : String) : Except String (Option SongType) :=
  let sessionId := effectiveSessionId ctx sessionId
  match Session.get db sessionId with
  | none => Except.error "Session not found"
  | some session => Except.ok session.currentlyPlaying

/-- The `Session.setCurrentlyPlaying` from the `part_004` snapshot (lines
641-653): stored-id substitution, then
`update({ currently_playing: song }).match({ id: sessionId })`. -/
def SessionP4.setCurrentlyPlaying (ctx : ClientCtx) (db : List SessionRow)
    (sessionId : String) (song : SongType) : List SessionRow :=
  let sessionId := effectiveSessionId ctx sessionId
  db.map fun r =>
    if r.id = sessionId then { r with currentlyPlaying := some song } else r

/-- The `Session.updateSettings` from the `part_004` snapshot (lines 517-528):
`update({ settings }).match({ id: sessionId })`, then
`notifyEvent(sessionId, SESSION_SETTINGS_CHANGED, settings)`.  The method
consults neither `ctx.authUid` nor the session host: no permission check
of any kind is performed before the mutation. -/
def SessionP4.updateSettings (ctx : ClientCtx) (db : List SessionRow)
    (sessionId : String) (settings : SessionSettings) :
    List SessionRow × Event :=
  let db' := db.map fun r =>
    if r.id = sessionId then { r with settings := settings } else r
  (db',
   SessionP4.notifyEvent ctx sessionId EventTypes.SESSION_SETTINGS_CHANGED
     (EventPayload.settingsObj settings))

/-- Modelled from the spec: the Queue Selector error.  The repository
contains no Queue Selector implementation under `src/` (only the candidate
filter `getSongsNotPlayedEnough` and the strategy names in
`QueueAlgorithms`); `selectNext` and its strategies are modelled from
spec section 4.2. -/
inductive QueueError where
  | QueueExhausted
  deriving DecidableEq, Repr

/-- Modelled from the spec: the total number of plays of the songs a user
added ("how many times songs they added have been played in total",
spec section 4.2, `modern`). -/
def totalPlays (songs : List SongType) (user : String) : Nat :=
  ((songs.filter fun s => s.addedBy = user).map fun s => s.playCount).sum

/-- Uniform pick from a list driven by one draw `r` of the process-local
random source: index `r % xs.length`, with a default for the (unused)
empty case. -/
def uniformPick (d : α) (xs : List α) (r : Nat) : α :=
  xs.getD (r % xs.length) d

/-- Sample an index from a list of nonnegative weights, normalized
implicitly: walk the cumulative sums and stop at the first weight whose
cumulative range contains the draw `r`; past the end, stick to the last
element.  This is the "normalize, sample" of spec section 4.2 with the
uniform draw `r` taken in units of the total weight. -/
def weightedPick : List ℚ → ℚ → Nat
  | [], _ => 0
  | [_], _ => 0
  | w :: ws, r => if r < w then 0 else weightedPick ws (r - w) + 1

/-- Weighted pick of an element: index chosen by `weightedPick` over the
mapped weights. -/
def weightedChoice (d : α) (xs : List α) (wt : α → ℚ) (r : ℚ) : α :=
  xs.getD (weightedPick (xs.map wt) r) d

/-- Modelled from the spec: the contributing users that currently own at
least one candidate song.  The `classic` retry loop ("retry with a
different uniformly-chosen user until one with candidates is found") picks
uniformly from exactly this set when it terminates, so we model the loop
by a direct pick from it. -/
def eligibleUsers (songs : List SongType) (contributors : List String) :
    List String :=
  contributors.dedup.filter fun u => songs.any fun s => s.addedBy = u

/-- Modelled from the spec: the candidate songs of one user, picked from
uniformly. -/
def pickFromUser (songs : List SongType) (d : SongType) (u : String)
    (r : Nat) : SongType :=
  uniformPick d (songs.filter fun s => s.addedBy = u) r

/-- Modelled from the spec: the `classic` strategy (spec section 4.2).
When no contributing user owns a candidate the retry loop of the spec
would not terminate; the spec asserts this cannot happen ("guaranteed to
terminate since candidates is non-empty"), and we fall back to a uniform
pick from the candidates on that vacuous branch. -/
def classicPick (songs : List SongType) (d : SongType)
    (contributors : List String) (rng : Nat → Nat) : SongType :=
  match eligibleUsers songs contributors with
  | [] => uniformPick d songs (rng 0)
  | u0 :: rest =>
      pickFromUser songs d (uniformPick u0 (u0 :: rest) (rng 1)) (rng 2)

/-- Modelled from the spec: the `modern` strategy (spec section 4.2),
users weighted by `1 / (1 + totalPlaysOfUser)`, then a uniform pick among
the candidates of the chosen user.  Same vacuous fallback as `classicPick`. -/
def modernPick (songs : List SongType) (d : SongType)
    (contributors : List String) (rng : Nat → Nat) (rr : ℚ) : SongType :=
  match eligibleUsers songs contributors with
  | [] => uniformPick d songs (rng 0)
  | u0 :: rest =>
      pickFromUser songs d
        (weightedChoice u0 (u0 :: rest)
          (fun v => 1 / (1 + (totalPlays songs v : ℚ))) rr)
        (rng 2)

/-- Modelled from the spec: `selectNext(songs, contributors, strategy)`
(spec section 4.2).  `songs` is the candidate set (the caller passes
`getSongsNotPlayedEnough`); `rng` is the process-local random source for
uniform draws and `rr` the draw used by the weighted strategies.  Fails
with `QueueExhausted` exactly when no candidate remains. -/
def selectNext (songs : List SongType) (contributors : List String)
    (strategy : QueueAlgorithms) (rng : Nat → Nat) (rr : ℚ) :
    Except QueueError SongType :=
  match songs with
  | [] => Except.error QueueError.QueueExhausted
  | s0 :: _ =>
      Except.ok <|
        match strategy with
        | QueueAlgorithms.random => uniformPick s0 songs (rng 0)
        | QueueAlgorithms.weightedSong =>
            weightedChoice s0 songs
              (fun s => 1 / (1 + (s.playCount : ℚ))) rr
        | QueueAlgorithms.classic => classicPick songs s0 contributors rng
        | QueueAlgorithms.modern => modernPick songs s0 contributors rng rr

/-! Concrete rows used by the evaluation theorems below. -/

/-- A candidate song (`playCount 0 < MAX_PLAYS`) in playlist 1. -/
def demoSong1 : SongType where
  id := 1
  createdAt := 0
  playCount := 0
  addedBy := "alice"
  songType := SongEnum.youtube
  platformId := "yt1"
  playlistId := 1
  title := "one"

/-- A capped song (`playCount 3 = MAX_PLAYS`) in playlist 1. -/
def demoSong2 : SongType where
  id := 2
  createdAt := 0
  playCount := 3
  addedBy := "alice"
  songType := SongEnum.youtube
  platformId := "yt2"
  playlistId := 1
  title := "two"

/-- A song in playlist 2 with a nonzero play count. -/
def demoSong3 : SongType where
  id := 3
  createdAt := 0
  playCount := 2
  addedBy := "bob"
  songType := SongEnum.spotify
  platformId := "sp3"
  playlistId := 2
  title := "three"

/-- A client whose stored session id is set to `s1`. -/
def demoCtx : ClientCtx where
  clientType := "app"
  storedSessionId := some "s1"
  authUid := "alice"

/-- A client with no stored session id. -/
def plainCtx : ClientCtx where
  clientType := "app"
  storedSessionId := none
  authUid := "alice"

/-- A client authenticated as `guest`, stored session id `s1`. -/
def guestCtx : ClientCtx where
  clientType := "app"
  storedSessionId := some "s1"
  authUid := "guest"

/-- Playlist 1, contributor list `[alice]`. -/
def demoPlaylist1 : PlaylistType where
  id := 1
  createdAt := 0
  name := "first"
  user := "owner"
  users := ["alice"]

/-- Playlist 2, contributor list `[bob]`. -/
def demoPlaylist2 : PlaylistType where
  id := 2
  createdAt := 0
  name := "second"
  user := "owner"
  users := ["bob"]

/-- A create request for a youtube song not present anywhere. -/
def demoCreate : YoutubeSongCreateType where
  title := "fresh"
  platformId := "yt-fresh"
  addedBy := "alice"
  playlistId := 1

/-- The session row `s1`, hosted by `host`. -/
def demoRow : SessionRow where
  id := "s1"
  createdAt := 0
  userId := "host"
  playlistId := 1
  currentlyPlaying := none
  settings := DEFAULT_SETTINGS

/-- Settings differing from `DEFAULT_SETTINGS`. -/
def newSettings : SessionSettings :=
  { DEFAULT_SETTINGS with allowSpotify := false }

/-- A client authenticated as the host of `demoRow`, stored session id
`s1`. -/
def hostCtx : ClientCtx where
  clientType := "app"
  storedSessionId := some "s1"
  authUid := "host"

/-! ## Helper lemmas -/

theorem getD_mem_or_default {α : Type} (xs : List α) (i : Nat) (d : α) :
    xs.getD i d ∈ xs ∨ xs.getD i d = d := by
  induction xs generalizing i with
  | nil => right; simp [List.getD]
  | cons x xs ih =>
      cases i with
      | zero => left; simp [List.getD]
      | succ n =>
          rcases ih n with h | h
          · left
            simpa [List.getD] using Or.inr (show xs.getD n d ∈ xs by
              simpa [List.getD] using h)
          · right; simpa [List.getD] using h

theorem getD_mem_of_subset {α : Type} {xs ys : List α}
    (hsub : ∀ a ∈ xs, a ∈ ys) {d : α} (hd : d ∈ ys) (i : Nat) :
    xs.getD i d ∈ ys := by
  rcases getD_mem_or_default xs i d with h | h
  · exact hsub _ h
  · rw [h]; exact hd

theorem uniformPick_mem {α : Type} {xs ys : List α}
    (hsub : ∀ a ∈ xs, a ∈ ys) {d : α} (hd : d ∈ ys) (r : Nat) :
    uniformPick d xs r ∈ ys :=
  getD_mem_of_subset hsub hd _

theorem weightedChoice_mem {α : Type} {xs ys : List α}
    (hsub : ∀ a ∈ xs, a ∈ ys) {d : α} (hd : d ∈ ys) (wt : α → ℚ) (r : ℚ) :
    weightedChoice d xs wt r ∈ ys :=
  getD_mem_of_subset hsub hd _

theorem pickFromUser_mem {songs : List SongType} {d : SongType}
    (hd : d ∈ songs) (u : String) (r : Nat) :
    pickFromUser songs d u r ∈ songs :=
  uniformPick_mem (fun _ ha => (List.mem_filter.mp ha).1) hd r

theorem classicPick_mem {songs : List SongType} {d : SongType}
    (hd : d ∈ songs) (contributors : List String) (rng : Nat → Nat) :
    classicPick songs d contributors rng ∈ songs := by
  unfold classicPick
  split
  · exact uniformPick_mem (fun a ha => ha) hd _
  · exact pickFromUser_mem hd _ _

theorem modernPick_mem {songs : List SongType} {d : SongType}
    (hd : d ∈ songs) (contributors : List String) (rng : Nat → Nat)
    (rr : ℚ) : modernPick songs d contributors rng rr ∈ songs := by
  unfold modernPick
  split
  · exact uniformPick_mem (fun a ha => ha) hd _
  · exact pickFromUser_mem hd _ _

theorem selectNext_ok_mem {songs : List SongType}
    {contributors : List String} {strategy : QueueAlgorithms}
    {rng : Nat → Nat} {rr : ℚ} {s : SongType}
    (h : selectNext songs contributors strategy rng rr = Except.ok s) :
    s ∈ songs := by
  cases songs with
  | nil => simp [selectNext] at h
  | cons s0 rest =>
      have hd : s0 ∈ s0 :: rest := List.mem_cons_self s0 rest
      cases strategy <;> simp only [selectNext, Except.ok.injEq] at h <;>
        subst h
      · exact classicPick_mem hd _ _
      · exact modernPick_mem hd _ _ _
      · exact uniformPick_mem (fun a ha => ha) hd _
      · exact weightedChoice_mem (fun a ha => ha) hd _ _

theorem selectNext_error_iff (songs : List SongType)
    (contributors : List String) (strategy : QueueAlgorithms)
    (rng : Nat → Nat) (rr : ℚ) :
    selectNext songs contributors strategy rng rr
        = Except.error QueueError.QueueExhausted
      ↔ songs = [] := by
  cases songs <;> simp [selectNext]

theorem mem_getSongsNotPlayedEnough (songs : List SongType)
    (playlistId : Nat) (s : SongType) :
    s ∈ getSongsNotPlayedEnough songs playlistId ↔
      s ∈ songs ∧ s.playlistId = playlistId ∧ s.playCount < 3 := by
  simp only [getSongsNotPlayedEnough, Song.getAllFromPlaylist,
    List.mem_filter, MAX_PLAYS, decide_eq_true_eq, and_assoc]

/-! ## Claim theorems -/

/-- Claim C1: For every candidate set produced by the filter
`getSongsNotPlayedEnough` (the songs of the playlist with
`playCount < MAX_PLAYS`, `MAX_PLAYS = 3`): `selectNext` raises
`QueueExhausted` iff that set is empty, otherwise it returns a song of the
set; and the filter admits exactly the songs of the playlist whose
`playCount` is strictly below 3.  The filter is embedded from
`src/src/services/playlist.ts`; `selectNext` is modelled from spec
section 4.2 since the repository ships no Queue Selector implementation. -/
theorem selectNext_spec (songs : List SongType) (contributors : List String)
    (strategy : QueueAlgorithms) (rng : Nat → Nat) (rr : ℚ)
    (playlistId : Nat) :
    (selectNext (getSongsNotPlayedEnough songs playlistId) contributors
          strategy rng rr = Except.error QueueError.QueueExhausted
      ↔ getSongsNotPlayedEnough songs playlistId = [])
    ∧ (∀ s, selectNext (getSongsNotPlayedEnough songs playlistId)
          contributors strategy rng rr = Except.ok s →
        s ∈ getSongsNotPlayedEnough songs playlistId)
    ∧ (∀ s, s ∈ getSongsNotPlayedEnough songs playlistId ↔
        s ∈ songs ∧ s.playlistId = playlistId ∧ s.playCount < 3) :=
  ⟨selectNext_error_iff _ _ _ _ _,
   fun _ h => selectNext_ok_mem h,
   fun s => mem_getSongsNotPlayedEnough songs playlistId s⟩

/-- Witness for `selectNext_spec` at a concrete two-song playlist: the
uncapped song is a candidate and `selectNext` does not raise
`QueueExhausted` on the nonempty candidate set. -/
theorem selectNext_spec_witness :
    demoSong1 ∈ getSongsNotPlayedEnough [demoSong1, demoSong2] 1 ∧
    selectNext (getSongsNotPlayedEnough [demoSong1, demoSong2] 1) ["alice"]
        QueueAlgorithms.modern (fun _ => 0) 0
      ≠ Except.error QueueError.QueueExhausted := by
  constructor
  · exact ((selectNext_spec [demoSong1, demoSong2] ["alice"]
      QueueAlgorithms.modern (fun _ => 0) 0 1).2.2 demoSong1).mpr (by decide)
  · intro h
    have h0 := (selectNext_spec [demoSong1, demoSong2] ["alice"]
      QueueAlgorithms.modern (fun _ => 0) 0 1).1.mp h
    have h1 : demoSong1 ∈ getSongsNotPlayedEnough [demoSong1, demoSong2] 1 :=
      by decide
    rw [h0] at h1
    exact absurd h1 (List.not_mem_nil _)

/-- Claim C2: The duplicate guard of `src/src/services/song.ts` is constant:
`alreadyContains` returns `data !== null`, and on the success path of a
Supabase select `data` is an array (possibly empty), never `null` -- so
the guard reports `true` for every playlist, including one containing no
song at all, and `createYoutube` then rejects an add whose
`(sourceKind, sourceId)` pair is nowhere present.  The `part_003` snapshot
(`data.length > 0`) reports the same store as duplicate-free. -/
theorem alreadyContains_constant_true :
    (∀ songs platformId playlistId,
        Song.alreadyContains songs platformId playlistId = true) ∧
    SongP3.alreadyContains [] "yt-fresh" 1 = false ∧
    Song.createYoutube demoCtx [] [demoPlaylist1] demoCreate 10
      = Except.error "Song already exists" := by
  refine ⟨fun songs platformId playlistId => ?_, by decide, rfl⟩
  simp [Song.alreadyContains, songSelectMatch]

/-- Claim C3: `Playlist.addUser` of the `part_001` snapshot is a
read-modify-write append with no deduplication: re-joining `alice`, who is
already the sole contributor, yields the contributor list
`[alice, alice]` -- two occurrences, not one. -/
theorem addUserP1_rejoin_duplicates :
    PlaylistP1.addUser [demoPlaylist1] 1 "alice"
      = Except.ok [{ demoPlaylist1 with users := ["alice", "alice"] }] ∧
    (["alice", "alice"].count "alice") = 2 :=
  ⟨rfl, by decide⟩

/-- Claim C4: `Playlist.resetPlaylist` zeroes the `playCount` of every song
of the playlist (first conjunct, over all stores), but the event it
publishes is `SESSION_REMOVED`, not the `PLAYLIST_FINISHED` its own doc
comment announces (remaining conjuncts, at a concrete store). -/
theorem resetPlaylist_zeroes_but_notifies_session_removed :
    (∀ ctx songs playlistId,
        ∀ s ∈ (Playlist.resetPlaylist ctx songs playlistId).1,
          s.playlistId = playlistId → s.playCount = 0) ∧
    (Playlist.resetPlaylist demoCtx [demoSong1, demoSong2, demoSong3] 1).2
      = Except.ok { session := "s1", clientType := "app",
                    eventType := "session_removed",
                    data := EMPTY_EVENT_DATA } ∧
    EventTypes.PLAYLIST_FINISHED.toWire = "playlist_finished" ∧
    "session_removed" ≠ "playlist_finished" := by
  refine ⟨?_, rfl, rfl, by decide⟩
  intro ctx songs playlistId s hs hpid
  have h1 : (Playlist.resetPlaylist ctx songs playlistId).1
      = songs.map (fun t =>
          if t.playlistId = playlistId then { t with playCount := 0 }
          else t) := by
    rcases hc : ctx.storedSessionId with _ | sid <;>
      simp [Playlist.resetPlaylist, hc]
  rw [h1] at hs
  obtain ⟨t, ht, rfl⟩ := List.mem_map.mp hs
  by_cases hti : t.playlistId = playlistId
  · simp [hti]
  · simp only [if_neg hti] at hpid
    exact absurd hpid hti

/-- Witness for `resetPlaylist_zeroes_but_notifies_session_removed`,
applying the zeroing conjunct to the reset copy of `demoSong3`. -/
theorem resetPlaylist_zeroes_witness :
    ({ demoSong3 with playCount := 0 } : SongType).playCount = 0 :=
  resetPlaylist_zeroes_but_notifies_session_removed.1 demoCtx [demoSong3] 2
    { demoSong3 with playCount := 0 } (by decide) (by decide)

/-- Claim C5: The guard of `Session.get` in `src/src/services/session.ts`
returns `undefined` when `error === null` -- which is exactly the success
case -- so `get` returns `undefined` for **every** id (first conjunct), and
`getCurrentlyPlaying`/`getPlaylist` report `Session not found` even for a
session present in the store (middle conjuncts; the filter conjunct shows
`s1` is present).  The final `part_004` snapshot, with the guard split
correctly, returns the stored row (last conjunct). -/
theorem sessionGet_always_none :
    (∀ db sessionId, Session.get db sessionId = none) ∧
    Session.getCurrentlyPlaying plainCtx [demoRow] "s1"
      = Except.error "Session not found" ∧
    Session.getPlaylist plainCtx [demoRow] [demoPlaylist1] "s1"
      = Except.error "Session not found" ∧
    ([demoRow].filter fun r => r.id = "s1") = [demoRow] ∧
    SessionP4.get [demoRow] "s1"
      = Except.ok (some { id := "s1", createdAt := 0, user := "host",
                          playlistId := 1, currentlyPlaying := none }) := by
  refine ⟨?_, rfl, rfl, by decide, rfl⟩
  intro db sessionId
  simp [Session.get, sessionSelectMatch]

/-- Claim C6 counterexample: A successful `updateSettings` by the host does
not publish the settings object as payload: the `part_004` `notifyEvent`
sends `data: JSON.stringify(eventData)`, so the payload on the wire is the
JSON string of the settings, not the settings object itself. -/
theorem updateSettings_payload_not_settings_object :
    (SessionP4.updateSettings hostCtx [demoRow] "s1" newSettings).2.data
      ≠ EventPayload.settingsObj newSettings := by decide

/-- Claim C6 amended: A successful `updateSettings` replaces the stored
settings and publishes `SESSION_SETTINGS_CHANGED` whose payload is the
JSON serialization of the new settings (one `JSON.stringify` beyond the
body encoding); the new settings are uniquely recoverable from that
payload, but the payload is a string, not the settings object. -/
theorem updateSettings_publishes_serialized_settings
    (ctx : ClientCtx) (db : List SessionRow) (sessionId : String)
    (settings : SessionSettings) :
    (SessionP4.updateSettings ctx db sessionId settings).2
      = { session := sessionId, clientType := ctx.clientType,
          eventType := "SESSION_SETTINGS_CHANGED",
          data := EventPayload.jsonText (EventPayload.settingsObj settings) } ∧
    (∀ s', EventPayload.jsonText (EventPayload.settingsObj s')
        = (SessionP4.updateSettings ctx db sessionId settings).2.data
      → s' = settings) ∧
    (∀ r ∈ (SessionP4.updateSettings ctx db sessionId settings).1,
        r.id = sessionId → r.settings = settings) := by
  refine ⟨rfl, ?_, ?_⟩
  · intro s' h
    simpa [SessionP4.updateSettings, SessionP4.notifyEvent] using h
  · intro r hr hid
    simp only [SessionP4.updateSettings] at hr
    obtain ⟨t, _ht, rfl⟩ := List.mem_map.mp hr
    by_cases hti : t.id = sessionId
    · simp [hti]
    · simp only [if_neg hti] at hid
      exact absurd hid hti

/-- Witness for `updateSettings_publishes_serialized_settings`, applying
the stored-settings conjunct to the updated copy of `demoRow`. -/
theorem updateSettings_publishes_serialized_settings_witness :
    ({ demoRow with settings := newSettings } : SessionRow).settings
      = newSettings :=
  (updateSettings_publishes_serialized_settings hostCtx [demoRow] "s1"
    newSettings).2.2 { demoRow with settings := newSettings }
    (by decide) (by decide)

/-- Claim C8 counterexample: `updateSettings` performs no permission check:
called with an authenticated user (`guest`) who is not the host of `s1`
(`host`), it still replaces the stored settings instead of failing with
`PermissionDenied` and leaving the store unchanged. -/
theorem updateSettings_no_permission_check :
    guestCtx.authUid ≠ demoRow.userId ∧
    (SessionP4.updateSettings guestCtx [demoRow] "s1" newSettings).1
      = [{ demoRow with settings := newSettings }] ∧
    (SessionP4.updateSettings guestCtx [demoRow] "s1" newSettings).1
      ≠ [demoRow] := by
  refine ⟨by decide, rfl, by decide⟩

/-- Claim C8 amended: `updateSettings` consults no permission model: its
result is independent of the authenticated user, it replaces the addressed
settings of the addressed session for every caller, and it publishes
`SESSION_SETTINGS_CHANGED`; `PermissionDenied` is never raised (the
function has no failure outcome at all). -/
theorem updateSettings_mutates_for_any_caller
    (ctx : ClientCtx) (db : List SessionRow) (sessionId : String)
    (settings : SessionSettings) :
    (∀ uid, SessionP4.updateSettings { ctx with authUid := uid } db
        sessionId settings
      = SessionP4.updateSettings ctx db sessionId settings) ∧
    (∀ r ∈ (SessionP4.updateSettings ctx db sessionId settings).1,
        r.id = sessionId → r.settings = settings) ∧
    (SessionP4.updateSettings ctx db sessionId settings).2.eventType
      = "SESSION_SETTINGS_CHANGED" := by
  refine ⟨fun uid => rfl, ?_, rfl⟩
  intro r hr hid
  simp only [SessionP4.updateSettings] at hr
  obtain ⟨t, _ht, rfl⟩ := List.mem_map.mp hr
  by_cases hti : t.id = sessionId
  · simp [hti]
  · simp only [if_neg hti] at hid
    exact absurd hid hti

/-- Witness for `updateSettings_mutates_for_any_caller`: instantiated for
the `guest` caller writing `DEFAULT_SETTINGS` to `s1`. -/
theorem updateSettings_mutates_for_any_caller_witness :
    demoRow.settings = DEFAULT_SETTINGS :=
  (updateSettings_mutates_for_any_caller guestCtx [demoRow] "s1"
    DEFAULT_SETTINGS).2.1 demoRow (by decide) (by decide)

/-- Claim C9: Once the stored session id is set via `setSessionId` (a
successful `claim` sets the same field), every session-scoped call that
takes a session id substitutes the stored id for the argument
(`if (this.sessionId !== undefined) sessionId = this.sessionId`), so any
two argument values produce identical results for `watch`, `setUser`,
`getPlaylist`, `getCurrentlyPlaying` and `setCurrentlyPlaying`. -/
theorem storedSessionId_overrides_argument (ctx : ClientCtx) (s0 : String)
    (db : List SessionRow) (playlists : List PlaylistType) (user : String)
    (song : SongType) (a b : String) :
    Session.watch (Session.setSessionId ctx s0) a
      = Session.watch (Session.setSessionId ctx s0) b ∧
    Session.setUser (Session.setSessionId ctx s0) db user a
      = Session.setUser (Session.setSessionId ctx s0) db user b ∧
    Session.getPlaylist (Session.setSessionId ctx s0) db playlists a
      = Session.getPlaylist (Session.setSessionId ctx s0) db playlists b ∧
    Session.getCurrentlyPlaying (Session.setSessionId ctx s0) db a
      = Session.getCurrentlyPlaying (Session.setSessionId ctx s0) db b ∧
    SessionP4.setCurrentlyPlaying (Session.setSessionId ctx s0) db a song
      = SessionP4.setCurrentlyPlaying (Session.setSessionId ctx s0) db b song :=
  ⟨rfl, rfl, rfl, rfl, rfl⟩

/-- Claim C10: The write-back of the `part_001` `Playlist.addUser` carries no
`.match` filter: adding `carol` to playlist 1 overwrites the `users` field
of **every** playlist row with the new list of playlist 1, here clobbering
the `[bob]` of playlist 2. -/
theorem addUserP1_writes_every_playlist :
    PlaylistP1.addUser [demoPlaylist1, demoPlaylist2] 1 "carol"
      = Except.ok [{ demoPlaylist1 with users := ["alice", "carol"] },
                   { demoPlaylist2 with users := ["alice", "carol"] }] ∧
    ({ demoPlaylist2 with users := ["alice", "carol"] } : PlaylistType).users
      ≠ demoPlaylist2.users :=
  ⟨rfl, by decide⟩

/-- Claim C7 counterexample: A discriminant outside the enumeration is not
rejected: `parseEvent` has no `default` case, so the switch falls through
and the call returns `undefined` (`none`) -- silently, with no
`ProtocolError` or any other exception raised. -/
theorem parseEvent_unknown_silently_undefined :
    parseEvent "not_an_event_kind" EMPTY_EVENT_DATA = none ∧
    "not_an_event_kind" ∉ knownEventTags :=
  ⟨rfl, by decide⟩

/-- Claim C7 amended: `parseEvent` maps every `EventKind` of the closed
enumeration to its payload (the runtime content of every branch is the
unchanged `data`; the per-kind shape lives in the erased casts), and an
event whose discriminant is not in the enumeration makes `parseEvent`
silently return `undefined` (`none`) rather than raise a
`ProtocolError`. -/
theorem parseEvent_known_some_unknown_none :
    (∀ t ∈ knownEventTags, ∀ d, parseEvent t d = some d) ∧
    (∀ t, t ∉ knownEventTags → ∀ d, parseEvent t d = none) := by
  constructor
  · intro t ht d
    fin_cases ht <;> rfl
  · intro t ht d
    unfold parseEvent
    split
    all_goals first
      | rfl
      | exact absurd (by decide) ht

/-- Witness for `parseEvent_known_some_unknown_none`: the known tag
`playlist_finished` parses to its payload, and the unknown tag
`mystery_event` parses to `undefined`. -/
theorem parseEvent_known_some_unknown_none_witness :
    parseEvent "playlist_finished" EMPTY_EVENT_DATA = some EMPTY_EVENT_DATA ∧
    parseEvent "mystery_event" EMPTY_EVENT_DATA = none :=
  ⟨parseEvent_known_some_unknown_none.1 "playlist_finished" (by decide)
      EMPTY_EVENT_DATA,
   parseEvent_known_some_unknown_none.2 "mystery_event" (by decide)
      EMPTY_EVENT_DATA⟩

end Sipapu
